import Mathlib

/-!
Verification of the admin image-triage screen (`src/app/admin-images.tsx`).

The development shallowly embeds the three pieces of real logic in that file:

* `classifyRows` (source lines 102-122): the pure three-way classification of
  rows by the nullability of `image_url` / `supabase_image_url`;
* `handleUpload` (source lines 130-226): the per-row upload flow — file
  selection, in-flight bookkeeping, multipart POST, success re-fetch,
  failure alert, guaranteed cleanup in the `finally` block;
* `fetchImages` (source lines 65-94): the subject fetch with its error
  alerts and row-list clearing.

Stateful TypeScript is modelled by explicit state passing: React `useState`
cells become fields of explicit state structures, `Alert.alert` becomes an
appended alert message, a `fetchImages` call becomes an incremented fetch
counter, and the observable ordering of effects inside `handleUpload` is
recorded as an event trace.  The interleaving of several `handleUpload`
invocations (each with its own suspension points) is modelled separately as
a labelled transition system `OrchStep`.
-/

/-- One catalog row, mirroring the `ImageRow` type (source lines 42-48).
`string | null` fields become `Option String`. -/
structure ImageRow where
  id : String
  subject : String
  react_order_final : String
  image_url : Option String
  supabase_image_url : Option String
deriving DecidableEq

/-- Output of the classifier, mirroring `ClassifiedRows` (source lines 50-54). -/
structure ClassifiedRows where
  noImages : List ImageRow
  externalOnly : List ImageRow
  uploaded : List ImageRow
deriving DecidableEq

/-- One iteration of the `rows.forEach` body inside `classifyRows`
(source lines 109-119): the if/else-if chain pushes the row into at most
one bucket; the fourth nullability combination falls through to no bucket. -/
def classifyStep (classified : ClassifiedRows) (row : ImageRow) : ClassifiedRows :=
  if row.image_url = none ∧ row.supabase_image_url = none then
    { classified with noImages := classified.noImages ++ [row] }
  else if row.image_url ≠ none ∧ row.supabase_image_url = none then
    { classified with externalOnly := classified.externalOnly ++ [row] }
  else if row.image_url ≠ none ∧ row.supabase_image_url ≠ none then
    { classified with uploaded := classified.uploaded ++ [row] }
  else
    classified

/-- `classifyRows` (source lines 102-122).  In the source it is a closure
reading the component state `rows`; here that state is the argument. -/
def classifyRows (rows : List ImageRow) : ClassifiedRows :=
  rows.foldl classifyStep ⟨[], [], []⟩

/-- The nullability test of the first branch (source line 110). -/
def isNoImage (row : ImageRow) : Bool :=
  row.image_url.isNone && row.supabase_image_url.isNone

/-- The nullability test of the second branch (source line 112). -/
def isExternalOnly (row : ImageRow) : Bool :=
  row.image_url.isSome && row.supabase_image_url.isNone

/-- The nullability test of the third branch (source line 114). -/
def isUploaded (row : ImageRow) : Bool :=
  row.image_url.isSome && row.supabase_image_url.isSome

/-- The excluded fourth combination (source lines 117-118). -/
def isExcluded (row : ImageRow) : Bool :=
  row.image_url.isNone && row.supabase_image_url.isSome

/-- Result of `DocumentPicker.getDocumentAsync` (source lines 138-150):
either the operator cancelled, or a single asset with name, uri and an
optional declared mime type was chosen. -/
inductive PickerResult where
  | canceled
  | picked (name : String) (uri : String) (mimeType : Option String)
deriving DecidableEq

/-- How the body of `handleUpload` after the in-flight add settles
(source lines 161-215):

* `blobFault`: on the web path, resolving the picked uri to a blob
  (source line 166) throws before the upload request is ever sent;
* `netFault`: the upload `fetch` itself, or reading its JSON body, throws
  (source lines 189, 203);
* `response ok bodyStatus`: the request settles with `response.ok = ok`
  and, when the body is read, `data.status = bodyStatus`. -/
inductive UploadOutcome where
  | blobFault
  | netFault
  | response (ok : Bool) (bodyStatus : String)
deriving DecidableEq

/-- Observable effects of one `handleUpload` run, in the order they occur. -/
inductive UploadEvent where
  | addInFlight (id : String)
  | requestSent
  | refetch (subject : String)
  | alertShown (msg : String)
  | removeInFlight (id : String)
deriving DecidableEq

/-- The mutable screen state touched by `handleUpload`: the `uploadingIds`
set (source line 62), the number of `fetchImages` calls it has triggered,
and the alerts shown so far. -/
structure UploadState where
  uploadingIds : Finset String
  fetchCount : Nat
  alerts : List String
deriving DecidableEq

/-- The alert message each failure path shows: the catch block (source
line 217) shows "Failed to upload image" for thrown faults — including the
non-2xx path, which throws at source line 200 — while the logical-failure
branch (source line 214) shows "Upload failed". -/
def failureAlertMsg : UploadOutcome → String
  | .blobFault => "Failed to upload image"
  | .netFault => "Failed to upload image"
  | .response ok _ => if ok then "Upload failed" else "Failed to upload image"

/-- Whether an outcome is a failure: a pre-request fault, a thrown network
fault, a non-2xx status, or a 2xx body whose status field is not "ok". -/
def uploadIsFailure : UploadOutcome → Bool
  | .blobFault => true
  | .netFault => true
  | .response ok bodyStatus => !ok || bodyStatus ≠ "ok"

/-- `handleUpload` (source lines 130-226) for one row, as a function of the
externally determined picker result and upload outcome.  Returns the new
state together with the trace of observable events.  Control flow mirrors
the source: the cancel check (line 145) returns out of the `try`, so the
`finally` delete (lines 218-225) still runs; the in-flight add (line 159)
happens only after a file is picked and before any request; every path
ends in the `finally` delete. -/
def handleUpload (row : ImageRow) (selectedSubject : Option String)
    (picker : PickerResult) (outcome : UploadOutcome)
    (s : UploadState) : UploadState × List UploadEvent :=
  match picker with
  | .canceled =>
      ({ s with uploadingIds := s.uploadingIds.erase row.id },
       [UploadEvent.removeInFlight row.id])
  | .picked _ _ _ =>
      let s1 : UploadState := { s with uploadingIds := insert row.id s.uploadingIds }
      match outcome with
      | .blobFault =>
          ({ s1 with
              alerts := s1.alerts ++ ["Failed to upload image"],
              uploadingIds := s1.uploadingIds.erase row.id },
           [UploadEvent.addInFlight row.id,
            UploadEvent.alertShown "Failed to upload image",
            UploadEvent.removeInFlight row.id])
      | .netFault =>
          ({ s1 with
              alerts := s1.alerts ++ ["Failed to upload image"],
              uploadingIds := s1.uploadingIds.erase row.id },
           [UploadEvent.addInFlight row.id, UploadEvent.requestSent,
            UploadEvent.alertShown "Failed to upload image",
            UploadEvent.removeInFlight row.id])
      | .response ok bodyStatus =>
          if ok then
            if bodyStatus = "ok" then
              match selectedSubject with
              | some subj =>
                  ({ s1 with
                      fetchCount := s1.fetchCount + 1,
                      uploadingIds := s1.uploadingIds.erase row.id },
                   [UploadEvent.addInFlight row.id, UploadEvent.requestSent,
                    UploadEvent.refetch subj,
                    UploadEvent.removeInFlight row.id])
              | none =>
                  ({ s1 with uploadingIds := s1.uploadingIds.erase row.id },
                   [UploadEvent.addInFlight row.id, UploadEvent.requestSent,
                    UploadEvent.removeInFlight row.id])
            else
              ({ s1 with
                  alerts := s1.alerts ++ ["Upload failed"],
                  uploadingIds := s1.uploadingIds.erase row.id },
               [UploadEvent.addInFlight row.id, UploadEvent.requestSent,
                UploadEvent.alertShown "Upload failed",
                UploadEvent.removeInFlight row.id])
          else
            ({ s1 with
                alerts := s1.alerts ++ ["Failed to upload image"],
                uploadingIds := s1.uploadingIds.erase row.id },
             [UploadEvent.addInFlight row.id, UploadEvent.requestSent,
              UploadEvent.alertShown "Failed to upload image",
              UploadEvent.removeInFlight row.id])

/-- Recognizes a `refetch` event. -/
def isRefetchEvent : UploadEvent → Bool
  | .refetch _ => true
  | _ => false

/-- Recognizes the `requestSent` event. -/
def isRequestSentEvent : UploadEvent → Bool
  | .requestSent => true
  | _ => false

/-- Recognizes an `addInFlight` event. -/
def isAddEvent : UploadEvent → Bool
  | .addInFlight _ => true
  | _ => false

/-- Result of the `supabase.rpc` call inside `fetchImages` (source
lines 71-73): a data payload (`data || []` folds a null payload into the
empty list), an error object carrying a message, or a thrown fault. -/
inductive RpcResult where
  | success (data : List ImageRow)
  | rpcError (message : String)
  | thrown
deriving DecidableEq

/-- The screen state touched by `fetchImages`: the row list, the loading
flag and the alerts shown so far (source lines 59-63). -/
structure FetchState where
  rows : List ImageRow
  loading : Bool
  alerts : List String
deriving DecidableEq

/-- `fetchImages` (source lines 65-94): clears the row list and sets
`loading` up front; on an RPC error it alerts with the backend message and
returns with the rows still empty; on a thrown fault it alerts with a
generic message; on success it installs the data; the `finally` block
always clears `loading`. -/
def fetchImages (res : RpcResult) (s : FetchState) : FetchState :=
  let s0 : FetchState := { s with rows := [], loading := true }
  match res with
  | .success data => { s0 with rows := data, loading := false }
  | .rpcError msg => { s0 with alerts := s0.alerts ++ [msg], loading := false }
  | .thrown => { s0 with alerts := s0.alerts ++ ["Failed to fetch images"], loading := false }

/-- Whether the upload button of a row is disabled (source line 467:
`disabled={isUploading}` with `isUploading = uploadingIds.has(row.id)`,
source line 414). -/
def uploadDisabled (uploadingIds : Finset String) (rowId : String) : Bool :=
  rowId ∈ uploadingIds

/-- Phase of one in-progress `handleUpload` invocation: suspended at the
file picker (source line 138), suspended at the upload request with the
row id in the in-flight set (source lines 159-195), or finished. -/
inductive TaskPhase where
  | selecting
  | inFlight
  | finished
deriving DecidableEq

/-- One pending or completed `handleUpload` invocation. -/
structure UploadTask where
  rowId : String
  phase : TaskPhase
deriving DecidableEq

/-- The interleaving state of the screen: the shared `uploadingIds` set and
the `handleUpload` invocations started so far. -/
structure OrchState where
  uploadingIds : Finset String
  tasks : List UploadTask
deriving DecidableEq

/-- Labels for the orchestrator transitions. -/
inductive OrchLabel where
  | press (rowId : String)
  | filePicked (taskIdx : Nat)
  | pickCanceled (taskIdx : Nat)
  | settled (taskIdx : Nat)
deriving DecidableEq

/-- Interleaved semantics of concurrent `handleUpload` invocations.

* `press`: the operator presses a row's upload button; possible only while
  the button is enabled, i.e. the row id is not in `uploadingIds` (source
  line 467).  This starts a new invocation suspended at the picker.  Note
  that nothing else gates the press: the id is only added later.
* `filePicked`: a suspended picker resolves with a file; the invocation
  adds the row id to `uploadingIds` and issues the request (source
  line 159).  The resolution of an already-open picker is not gated by the
  button state.
* `pickCanceled`: a suspended picker resolves cancelled; the `finally`
  block still deletes the id (source lines 145-148, 218-225).
* `settled`: the request settles (any outcome); the `finally` block
  deletes the id (source lines 218-225). -/
inductive OrchStep : OrchState → OrchLabel → OrchState → Prop where
  | press (s : OrchState) (r : String)
      (h : uploadDisabled s.uploadingIds r = false) :
      OrchStep s (.press r)
        { s with tasks := s.tasks ++ [⟨r, .selecting⟩] }
  | filePicked (s : OrchState) (i : Nat) (t : UploadTask)
      (hi : s.tasks[i]? = some t) (hp : t.phase = .selecting) :
      OrchStep s (.filePicked i)
        { uploadingIds := insert t.rowId s.uploadingIds,
          tasks := s.tasks.set i ⟨t.rowId, .inFlight⟩ }
  | pickCanceled (s : OrchState) (i : Nat) (t : UploadTask)
      (hi : s.tasks[i]? = some t) (hp : t.phase = .selecting) :
      OrchStep s (.pickCanceled i)
        { uploadingIds := s.uploadingIds.erase t.rowId,
          tasks := s.tasks.set i ⟨t.rowId, .finished⟩ }
  | settled (s : OrchState) (i : Nat) (t : UploadTask)
      (hi : s.tasks[i]? = some t) (hp : t.phase = .inFlight) :
      OrchStep s (.settled i)
        { uploadingIds := s.uploadingIds.erase t.rowId,
          tasks := s.tasks.set i ⟨t.rowId, .finished⟩ }

/-- States reachable from the initial screen state (empty in-flight set,
no invocations). -/
inductive OrchReachable : OrchState → Prop where
  | init : OrchReachable ⟨∅, []⟩
  | step {s s' : OrchState} {l : OrchLabel} :
      OrchReachable s → OrchStep s l s' → OrchReachable s'

/-- Number of uploads concurrently in flight for a given row id. -/
def concurrentUploads (s : OrchState) (r : String) : Nat :=
  (s.tasks.filter (fun t => t.rowId = r ∧ t.phase = .inFlight)).length

/-- A reachable state with two uploads in flight for row "b": the operator
presses the button twice while the first invocation is still at the file
picker (the id is not yet in `uploadingIds`, so the button is enabled),
then both pickers resolve with a file. -/
def raceState : OrchState :=
  ⟨insert "b" (insert "b" ∅), [⟨"b", .inFlight⟩, ⟨"b", .inFlight⟩]⟩

/-- A concrete row used in witness statements. -/
def sampleRow : ImageRow :=
  ⟨"b", "Anatomy", "1", some "http://x/1.jpg", none⟩

/-- A concrete screen state used in witness statements. -/
def sampleState : UploadState := ⟨∅, 0, []⟩

theorem classify_foldl_spec (rows : List ImageRow) (c : ClassifiedRows) :
    rows.foldl classifyStep c =
      ⟨c.noImages ++ rows.filter isNoImage,
       c.externalOnly ++ rows.filter isExternalOnly,
       c.uploaded ++ rows.filter isUploaded⟩ := by
  induction rows generalizing c with
  | nil => simp
  | cons row rows ih =>
    rw [List.foldl_cons, ih]
    rcases h1 : row.image_url with _ | u <;>
      rcases h2 : row.supabase_image_url with _ | v <;>
        simp [classifyStep, isNoImage, isExternalOnly, isUploaded, h1, h2]

theorem classifyRows_eq_filter (rows : List ImageRow) :
    classifyRows rows =
      ⟨rows.filter isNoImage, rows.filter isExternalOnly, rows.filter isUploaded⟩ := by
  rw [classifyRows, classify_foldl_spec]
  simp

/-- C1: `classifyRows` places each row in the bucket determined solely by
the nullability pair of its two URL fields: (null, null) goes to
`noImages`, (non-null, null) to `externalOnly`, (non-null, non-null) to
`uploaded`, and a row with (null, non-null) is placed in no bucket. -/
theorem classifyRows_bucket_characterization (rows : List ImageRow) (r : ImageRow) :
    (r ∈ (classifyRows rows).noImages ↔
      r ∈ rows ∧ r.image_url = none ∧ r.supabase_image_url = none) ∧
    (r ∈ (classifyRows rows).externalOnly ↔
      r ∈ rows ∧ r.image_url ≠ none ∧ r.supabase_image_url = none) ∧
    (r ∈ (classifyRows rows).uploaded ↔
      r ∈ rows ∧ r.image_url ≠ none ∧ r.supabase_image_url ≠ none) ∧
    (r.image_url = none → r.supabase_image_url ≠ none →
      r ∉ (classifyRows rows).noImages ∧
      r ∉ (classifyRows rows).externalOnly ∧
      r ∉ (classifyRows rows).uploaded) := by
  rw [classifyRows_eq_filter]
  rcases h1 : r.image_url with _ | u <;>
    rcases h2 : r.supabase_image_url with _ | v <;>
      simp [List.mem_filter, isNoImage, isExternalOnly, isUploaded, h1, h2]

/-- C1 witness at a concrete input: the spec's own example row set. -/
theorem classifyRows_bucket_characterization_witness :
    let rows : List ImageRow :=
      [⟨"a", "Anatomy", "1", none, none⟩,
       ⟨"b", "Anatomy", "2", some "http://x/1.jpg", none⟩,
       ⟨"c", "Anatomy", "3", some "http://x/2.jpg", some "http://store/2.jpg"⟩,
       ⟨"d", "Anatomy", "4", none, some "http://store/4.jpg"⟩]
    let d : ImageRow := ⟨"d", "Anatomy", "4", none, some "http://store/4.jpg"⟩
    d ∉ (classifyRows rows).noImages ∧
    d ∉ (classifyRows rows).externalOnly ∧
    d ∉ (classifyRows rows).uploaded :=
  (classifyRows_bucket_characterization _ _).2.2.2 rfl (by decide)

/-- C2: the three buckets returned by `classifyRows` are pairwise
disjoint, so each input row appears in at most one bucket, and a row with
`image_url = null` and `supabase_image_url != null` appears in none. -/
theorem classifyRows_buckets_disjoint (rows : List ImageRow) (r : ImageRow) :
    (¬(r ∈ (classifyRows rows).noImages ∧ r ∈ (classifyRows rows).externalOnly)) ∧
    (¬(r ∈ (classifyRows rows).noImages ∧ r ∈ (classifyRows rows).uploaded)) ∧
    (¬(r ∈ (classifyRows rows).externalOnly ∧ r ∈ (classifyRows rows).uploaded)) ∧
    (isExcluded r = true →
      r ∉ (classifyRows rows).noImages ∧
      r ∉ (classifyRows rows).externalOnly ∧
      r ∉ (classifyRows rows).uploaded) := by
  rw [classifyRows_eq_filter]
  rcases h1 : r.image_url with _ | u <;>
    rcases h2 : r.supabase_image_url with _ | v <;>
      simp [List.mem_filter, isNoImage, isExternalOnly, isUploaded, isExcluded, h1, h2]

/-- C2 witness at a concrete input. -/
theorem classifyRows_buckets_disjoint_witness :
    let rows : List ImageRow :=
      [⟨"b", "Anatomy", "2", some "http://x/1.jpg", none⟩,
       ⟨"d", "Anatomy", "4", none, some "http://store/4.jpg"⟩]
    let d : ImageRow := ⟨"d", "Anatomy", "4", none, some "http://store/4.jpg"⟩
    isExcluded d = true ∧
    (d ∉ (classifyRows rows).noImages ∧
     d ∉ (classifyRows rows).externalOnly ∧
     d ∉ (classifyRows rows).uploaded) :=
  ⟨by decide, (classifyRows_buckets_disjoint _ _).2.2.2 (by decide)⟩

/-- C3: `classifyRows` is a pure function of the row list; each bucket is
a sublist of the input (stable partition: rows keep their input relative
order), the buckets are exactly order-preserving filters of the input
(determinism), and classifying the same input twice yields identical
bucket contents. -/
theorem classifyRows_stable_partition (rows : List ImageRow) :
    ((classifyRows rows).noImages.Sublist rows ∧
     (classifyRows rows).externalOnly.Sublist rows ∧
     (classifyRows rows).uploaded.Sublist rows) ∧
    ((classifyRows rows).noImages = rows.filter isNoImage ∧
     (classifyRows rows).externalOnly = rows.filter isExternalOnly ∧
     (classifyRows rows).uploaded = rows.filter isUploaded) ∧
    classifyRows rows = classifyRows rows := by
  rw [classifyRows_eq_filter]
  exact ⟨⟨List.filter_sublist _, List.filter_sublist _, List.filter_sublist _⟩,
         ⟨rfl, rfl, rfl⟩, rfl⟩

/-- C4: for every upload run after a file is selected, the in-flight add
is the first observable event — in particular it precedes the upload
request — and the in-flight removal is the last, on every exit path
(success, logical failure, non-2xx, pre-request fault, thrown fault), via
the `finally` block; afterwards the row id is not in the in-flight set. -/
theorem handleUpload_inflight_bracket (row : ImageRow) (selectedSubject : Option String)
    (name uri : String) (mime : Option String) (outcome : UploadOutcome) (s : UploadState) :
    (∃ mid,
      (handleUpload row selectedSubject (PickerResult.picked name uri mime) outcome s).2 =
        UploadEvent.addInFlight row.id :: (mid ++ [UploadEvent.removeInFlight row.id])) ∧
    row.id ∉ (handleUpload row selectedSubject (PickerResult.picked name uri mime) outcome s).1.uploadingIds := by
  cases outcome with
  | blobFault =>
    exact ⟨⟨[UploadEvent.alertShown "Failed to upload image"], rfl⟩, Finset.not_mem_erase _ _⟩
  | netFault =>
    exact ⟨⟨[UploadEvent.requestSent, UploadEvent.alertShown "Failed to upload image"], rfl⟩,
           Finset.not_mem_erase _ _⟩
  | response ok body =>
    cases ok with
    | false =>
      exact ⟨⟨[UploadEvent.requestSent, UploadEvent.alertShown "Failed to upload image"], rfl⟩,
             Finset.not_mem_erase _ _⟩
    | true =>
      by_cases hb : body = "ok"
      · subst hb
        cases selectedSubject with
        | none => exact ⟨⟨[UploadEvent.requestSent], rfl⟩, Finset.not_mem_erase _ _⟩
        | some subj =>
          exact ⟨⟨[UploadEvent.requestSent, UploadEvent.refetch subj], rfl⟩,
                 Finset.not_mem_erase _ _⟩
      · refine ⟨⟨[UploadEvent.requestSent, UploadEvent.alertShown "Upload failed"], ?_⟩, ?_⟩
        · simp [handleUpload, hb]
        · simp [handleUpload, hb, Finset.not_mem_erase]

/-- C5: a successful upload (2xx response with body status "ok") with a
subject selected removes the row id from the in-flight set, triggers
exactly one re-fetch, of the active subject, and shows no alert. -/
theorem handleUpload_success_refetch (row : ImageRow) (subj : String)
    (name uri : String) (mime : Option String) (s : UploadState) :
    (handleUpload row (some subj) (PickerResult.picked name uri mime)
        (UploadOutcome.response true "ok") s).1.fetchCount = s.fetchCount + 1 ∧
    (handleUpload row (some subj) (PickerResult.picked name uri mime)
        (UploadOutcome.response true "ok") s).1.alerts = s.alerts ∧
    row.id ∉ (handleUpload row (some subj) (PickerResult.picked name uri mime)
        (UploadOutcome.response true "ok") s).1.uploadingIds ∧
    (handleUpload row (some subj) (PickerResult.picked name uri mime)
        (UploadOutcome.response true "ok") s).2 =
      [UploadEvent.addInFlight row.id, UploadEvent.requestSent,
       UploadEvent.refetch subj, UploadEvent.removeInFlight row.id] ∧
    ((handleUpload row (some subj) (PickerResult.picked name uri mime)
        (UploadOutcome.response true "ok") s).2.countP isRefetchEvent) = 1 :=
  ⟨rfl, rfl, Finset.not_mem_erase _ _, rfl, rfl⟩

/-- C6: every failing upload — pre-request fault, thrown network fault,
non-2xx status, or a 2xx body whose status is not "ok" — shows exactly one
generic failure alert, leaves the fetch count unchanged (zero re-fetches),
removes the row id from the in-flight set, and sends the request at most
once (no automatic retry). -/
theorem handleUpload_failure (row : ImageRow) (selectedSubject : Option String)
    (name uri : String) (mime : Option String) (outcome : UploadOutcome) (s : UploadState)
    (h : uploadIsFailure outcome = true) :
    (handleUpload row selectedSubject (PickerResult.picked name uri mime) outcome s).1.alerts =
      s.alerts ++ [failureAlertMsg outcome] ∧
    (handleUpload row selectedSubject (PickerResult.picked name uri mime) outcome s).1.fetchCount =
      s.fetchCount ∧
    row.id ∉ (handleUpload row selectedSubject (PickerResult.picked name uri mime) outcome s).1.uploadingIds ∧
    ((handleUpload row selectedSubject (PickerResult.picked name uri mime) outcome s).2.countP
      isRefetchEvent) = 0 ∧
    ((handleUpload row selectedSubject (PickerResult.picked name uri mime) outcome s).2.countP
      isRequestSentEvent) ≤ 1 := by
  cases outcome with
  | blobFault =>
    exact ⟨rfl, rfl, Finset.not_mem_erase _ _, rfl, by simp [handleUpload, isRequestSentEvent]⟩
  | netFault =>
    exact ⟨rfl, rfl, Finset.not_mem_erase _ _, rfl, by simp [handleUpload, isRequestSentEvent]⟩
  | response ok body =>
    cases ok with
    | false =>
      exact ⟨rfl, rfl, Finset.not_mem_erase _ _, rfl, by simp [handleUpload, isRequestSentEvent]⟩
    | true =>
      have hb : body ≠ "ok" := by simpa [uploadIsFailure] using h
      refine ⟨?_, ?_, ?_, ?_, ?_⟩ <;>
        simp [handleUpload, failureAlertMsg, hb, Finset.not_mem_erase, isRefetchEvent,
          isRequestSentEvent]

/-- C6 witness: a thrown network fault on a concrete row and state. -/
theorem handleUpload_failure_witness :
    uploadIsFailure UploadOutcome.netFault = true ∧
    ((handleUpload sampleRow (some "Anatomy") (PickerResult.picked "f.jpg" "blob:1" none)
        UploadOutcome.netFault sampleState).1.alerts =
      sampleState.alerts ++ [failureAlertMsg UploadOutcome.netFault] ∧
     (handleUpload sampleRow (some "Anatomy") (PickerResult.picked "f.jpg" "blob:1" none)
        UploadOutcome.netFault sampleState).1.fetchCount = sampleState.fetchCount ∧
     sampleRow.id ∉ (handleUpload sampleRow (some "Anatomy")
        (PickerResult.picked "f.jpg" "blob:1" none)
        UploadOutcome.netFault sampleState).1.uploadingIds ∧
     ((handleUpload sampleRow (some "Anatomy") (PickerResult.picked "f.jpg" "blob:1" none)
        UploadOutcome.netFault sampleState).2.countP isRefetchEvent) = 0 ∧
     ((handleUpload sampleRow (some "Anatomy") (PickerResult.picked "f.jpg" "blob:1" none)
        UploadOutcome.netFault sampleState).2.countP isRequestSentEvent) ≤ 1) :=
  ⟨rfl, handleUpload_failure sampleRow (some "Anatomy") "f.jpg" "blob:1" none
    UploadOutcome.netFault sampleState rfl⟩

/-- C7: a cancelled file selection returns silently to idle: the state is
unchanged (no alert shown, no re-fetch) and the row id is never added to
the in-flight set. -/
theorem handleUpload_cancel (row : ImageRow) (selectedSubject : Option String)
    (outcome : UploadOutcome) (s : UploadState)
    (h : row.id ∉ s.uploadingIds) :
    (handleUpload row selectedSubject PickerResult.canceled outcome s).1 = s ∧
    ((handleUpload row selectedSubject PickerResult.canceled outcome s).2.countP isAddEvent) = 0 := by
  constructor
  · show ({ s with uploadingIds := s.uploadingIds.erase row.id } : UploadState) = s
    rw [Finset.erase_eq_of_not_mem h]
  · rfl

/-- C7 witness: cancelling on a concrete row and state. -/
theorem handleUpload_cancel_witness :
    sampleRow.id ∉ sampleState.uploadingIds ∧
    ((handleUpload sampleRow none PickerResult.canceled UploadOutcome.netFault sampleState).1 =
        sampleState ∧
     ((handleUpload sampleRow none PickerResult.canceled UploadOutcome.netFault
        sampleState).2.countP isAddEvent) = 0) :=
  ⟨by simp [sampleRow, sampleState],
   handleUpload_cancel sampleRow none UploadOutcome.netFault sampleState
     (by simp [sampleRow, sampleState])⟩

/-- C9: a fetch ending in an error — an RPC error result or a thrown
fault — surfaces an alert (carrying the backend message for an RPC error,
a generic message for a thrown fault) and leaves the row list empty. -/
theorem fetchImages_error_clears_rows (msg : String) (s : FetchState) :
    ((fetchImages (RpcResult.rpcError msg) s).rows = [] ∧
     (fetchImages (RpcResult.rpcError msg) s).alerts = s.alerts ++ [msg]) ∧
    ((fetchImages RpcResult.thrown s).rows = [] ∧
     (fetchImages RpcResult.thrown s).alerts = s.alerts ++ ["Failed to fetch images"]) :=
  ⟨⟨rfl, rfl⟩, ⟨rfl, rfl⟩⟩

/-- C10: a successful upload acknowledgement with no subject selected
completes with zero re-fetches and no alert, while still removing the row
id from the in-flight set. -/
theorem handleUpload_success_no_subject (row : ImageRow)
    (name uri : String) (mime : Option String) (s : UploadState) :
    (handleUpload row none (PickerResult.picked name uri mime)
        (UploadOutcome.response true "ok") s).1.fetchCount = s.fetchCount ∧
    (handleUpload row none (PickerResult.picked name uri mime)
        (UploadOutcome.response true "ok") s).1.alerts = s.alerts ∧
    row.id ∉ (handleUpload row none (PickerResult.picked name uri mime)
        (UploadOutcome.response true "ok") s).1.uploadingIds ∧
    (handleUpload row none (PickerResult.picked name uri mime)
        (UploadOutcome.response true "ok") s).2 =
      [UploadEvent.addInFlight row.id, UploadEvent.requestSent,
       UploadEvent.removeInFlight row.id] ∧
    ((handleUpload row none (PickerResult.picked name uri mime)
        (UploadOutcome.response true "ok") s).2.countP isRefetchEvent) = 0 :=
  ⟨rfl, rfl, Finset.not_mem_erase _ _, rfl, rfl⟩

/-- C8 counterexample: a reachable interleaving with two uploads
concurrently in flight for the same row "b".  The operator presses the
upload button twice while the first invocation is still suspended at the
file picker — the row id is added to `uploadingIds` only after a file is
chosen (source line 159, after the `await` at line 138), so the button is
still enabled for the second press — and then both pickers resolve with a
file. -/
theorem handleUpload_double_trigger_cex :
    OrchReachable raceState ∧ concurrentUploads raceState "b" = 2 := by
  constructor
  · have h0 : OrchReachable ⟨∅, []⟩ := OrchReachable.init
    have h1 : OrchReachable ⟨∅, [⟨"b", TaskPhase.selecting⟩]⟩ :=
      OrchReachable.step h0 (OrchStep.press ⟨∅, []⟩ "b" (by decide))
    have h2 : OrchReachable ⟨∅, [⟨"b", TaskPhase.selecting⟩, ⟨"b", TaskPhase.selecting⟩]⟩ :=
      OrchReachable.step h1
        (OrchStep.press ⟨∅, [⟨"b", TaskPhase.selecting⟩]⟩ "b" (by decide))
    have h3 : OrchReachable
        ⟨insert "b" ∅, [⟨"b", TaskPhase.inFlight⟩, ⟨"b", TaskPhase.selecting⟩]⟩ :=
      OrchReachable.step h2
        (OrchStep.filePicked ⟨∅, [⟨"b", TaskPhase.selecting⟩, ⟨"b", TaskPhase.selecting⟩]⟩
          0 ⟨"b", TaskPhase.selecting⟩ rfl rfl)
    have h4 : OrchReachable
        ⟨insert "b" (insert "b" ∅),
         [⟨"b", TaskPhase.inFlight⟩, ⟨"b", TaskPhase.inFlight⟩]⟩ :=
      OrchReachable.step h3
        (OrchStep.filePicked
          ⟨insert "b" ∅, [⟨"b", TaskPhase.inFlight⟩, ⟨"b", TaskPhase.selecting⟩]⟩
          1 ⟨"b", TaskPhase.selecting⟩ rfl rfl)
    exact h4
  · rfl

/-- C8 (amended): while a row's id is in the in-flight set, its action
control is disabled, so no new upload for that row can be initiated from
such a state. -/
theorem handleUpload_inflight_press_blocked (s s' : OrchState) (r : String)
    (h : r ∈ s.uploadingIds) : ¬ OrchStep s (OrchLabel.press r) s' := by
  intro hstep
  cases hstep with
  | press _ hdis => simp [uploadDisabled, h] at hdis

/-- C8 witness: with row "b" in flight, the press transition is blocked. -/
theorem handleUpload_inflight_press_blocked_witness :
    ("b" ∈ (⟨insert "b" ∅, []⟩ : OrchState).uploadingIds) ∧
    ¬ OrchStep ⟨insert "b" ∅, []⟩ (OrchLabel.press "b")
        ⟨insert "b" ∅, [⟨"b", TaskPhase.selecting⟩]⟩ :=
  ⟨by simp, handleUpload_inflight_press_blocked _ _ _ (by simp)⟩
